import Mathlib

/-!
# Verification of the retryhttp core (classification + context-aware wait)

Shallow embedding of `retryhttp/_utils.py`, `retryhttp/_wait.py` and
`retryhttp/_retry.py`, faithful to the Python source:

* Exception values are modelled by their concrete class (`ExcType`) together
  with the real class hierarchies of the `httpx` and `requests` libraries
  (both installed, as the spec's default sets assume); `isinstance` becomes
  membership of an ancestor in a tuple of classes.
* The `response` attribute of an exception has three states: absent
  (`hasattr(exc, "response")` false), present but `None` — the default of
  every `requests.RequestException`, whose `__init__` always runs
  `self.response = kwargs.pop("response", None)` — and present with a
  captured response. Dereferencing the `None` state raises
  `AttributeError`, which is modelled explicitly.
* HTTP responses are a status code plus a case-insensitive header map
  (httpx/requests header lookup is case-insensitive).
* `tenacity.RetryCallState` carries an optional outcome future whose
  `exception()` is an optional exception.
* Python floats are modelled as exact rationals (`ℚ`); the wall clock
  (`datetime.now(timezone.utc)`) is an injectable whole-second timestamp
  `now : ℤ` (seconds since the Unix epoch), per the spec's single
  injectable time source.
* Raise sites become `Except PyError`: the `ValueError`s of
  `wait_from_header` (one `WaitError` constructor per raise site) and the
  `AttributeError` from dereferencing a `None` response attribute.
-/

namespace Retryhttp

/-- Decidable equality for `Except`, used to evaluate the embedded fallible
operations on concrete inputs. -/
instance {ε α : Type} [DecidableEq ε] [DecidableEq α] : DecidableEq (Except ε α)
  | .ok a, .ok b => decidable_of_iff (a = b) (by simp)
  | .ok _, .error _ => .isFalse (by simp)
  | .error _, .ok _ => .isFalse (by simp)
  | .error a, .error b => decidable_of_iff (a = b) (by simp)

/-- Concrete exception classes relevant to the library, drawn from the
`httpx` and `requests` exception hierarchies plus a generic unrelated
exception (`otherException`). Names are `<library><ClassName>`. -/
inductive ExcType where
  | httpxHTTPError
  | httpxRequestError
  | httpxTransportError
  | httpxTimeoutException
  | httpxConnectTimeout
  | httpxReadTimeout
  | httpxWriteTimeout
  | httpxPoolTimeout
  | httpxNetworkError
  | httpxConnectError
  | httpxReadError
  | httpxWriteError
  | httpxCloseError
  | httpxHTTPStatusError
  | pythonOSError
  | requestsRequestException
  | requestsHTTPError
  | requestsConnectionError
  | requestsTimeout
  | requestsConnectTimeout
  | requestsReadTimeout
  | requestsChunkedEncodingError
  | otherException
  deriving DecidableEq, Repr, Fintype

namespace ExcType

/-- The class and all its proper ancestors (reflexive-transitive closure of
the base-class relation), per `httpx/_exceptions.py` (HTTPError ← RequestError
← TransportError ← {TimeoutException, NetworkError}; HTTPError ←
HTTPStatusError) and `requests/exceptions.py` (RequestException(IOError);
ConnectTimeout inherits from BOTH ConnectionError and Timeout). -/
def ancestors : ExcType → List ExcType
  | httpxHTTPError => [httpxHTTPError]
  | httpxRequestError => [httpxRequestError, httpxHTTPError]
  | httpxTransportError => [httpxTransportError, httpxRequestError, httpxHTTPError]
  | httpxTimeoutException =>
      [httpxTimeoutException, httpxTransportError, httpxRequestError, httpxHTTPError]
  | httpxConnectTimeout =>
      [httpxConnectTimeout, httpxTimeoutException, httpxTransportError,
       httpxRequestError, httpxHTTPError]
  | httpxReadTimeout =>
      [httpxReadTimeout, httpxTimeoutException, httpxTransportError,
       httpxRequestError, httpxHTTPError]
  | httpxWriteTimeout =>
      [httpxWriteTimeout, httpxTimeoutException, httpxTransportError,
       httpxRequestError, httpxHTTPError]
  | httpxPoolTimeout =>
      [httpxPoolTimeout, httpxTimeoutException, httpxTransportError,
       httpxRequestError, httpxHTTPError]
  | httpxNetworkError =>
      [httpxNetworkError, httpxTransportError, httpxRequestError, httpxHTTPError]
  | httpxConnectError =>
      [httpxConnectError, httpxNetworkError, httpxTransportError,
       httpxRequestError, httpxHTTPError]
  | httpxReadError =>
      [httpxReadError, httpxNetworkError, httpxTransportError,
       httpxRequestError, httpxHTTPError]
  | httpxWriteError =>
      [httpxWriteError, httpxNetworkError, httpxTransportError,
       httpxRequestError, httpxHTTPError]
  | httpxCloseError =>
      [httpxCloseError, httpxNetworkError, httpxTransportError,
       httpxRequestError, httpxHTTPError]
  | httpxHTTPStatusError => [httpxHTTPStatusError, httpxHTTPError]
  | pythonOSError => [pythonOSError]
  | requestsRequestException => [requestsRequestException, pythonOSError]
  | requestsHTTPError => [requestsHTTPError, requestsRequestException, pythonOSError]
  | requestsConnectionError =>
      [requestsConnectionError, requestsRequestException, pythonOSError]
  | requestsTimeout => [requestsTimeout, requestsRequestException, pythonOSError]
  | requestsConnectTimeout =>
      [requestsConnectTimeout, requestsConnectionError, requestsTimeout,
       requestsRequestException, pythonOSError]
  | requestsReadTimeout =>
      [requestsReadTimeout, requestsTimeout, requestsRequestException, pythonOSError]
  | requestsChunkedEncodingError =>
      [requestsChunkedEncodingError, requestsRequestException, pythonOSError]
  | otherException => [otherException]

end ExcType

/-- `isinstance(e, types)` for an exception whose concrete class is `c` and a
tuple `types` of classes: some ancestor of `c` is listed in `types`. -/
def isinstance (c : ExcType) (types : List ExcType) : Bool :=
  types.any (fun t => c.ancestors.contains t)

/-- An HTTP response snapshot: status code and header map. -/
structure HTTPResponse where
  status_code : Nat
  headers : List (String × String)
  deriving DecidableEq, Repr

/-- ASCII lowercasing of a string (kernel-computable). -/
def lowerString (s : String) : String := ⟨s.data.map Char.toLower⟩

/-- Case-insensitive header lookup (`response.headers.get(name)` in
httpx/requests). -/
def HTTPResponse.headersGet (r : HTTPResponse) (name : String) : Option String :=
  (r.headers.find? (fun p => lowerString p.1 == lowerString name)).map (fun p => p.2)

/-- An exception value: its concrete class and its `response` attribute.
`response = none` models the attribute being absent (`hasattr(exc,
"response")` is false); `response = some none` models the attribute present
with value `None`, which is the default state of every
`requests.RequestException`; `response = some (some r)` models a captured
response. -/
structure Exc where
  ty : ExcType
  response : Option (Option HTTPResponse)
  deriving DecidableEq, Repr

/-- The `ValueError` raise sites of `wait_from_header`, one constructor per
site. -/
inductive WaitError where
  /-- `"Header not present: ..."` -/
  | missingHeader
  /-- `datetime.strptime` failed on a non-all-digit header value. -/
  | invalidHeaderValue
  /-- `"Date provided in header ... is in the past"` -/
  | dateInPast
  /-- `"Unable to parse wait time from header"` (no outcome, success, or an
  exception that is not an HTTP-status exception with a response). -/
  | unableToParse
  /-- `"Wait value parsed from header ... is greater than wait_max"` -/
  | waitExceedsMax
  deriving DecidableEq, Repr

/-- The errors the embedded operations can raise: the `ValueError` family of
`wait_from_header`, and the `AttributeError` raised when the code
dereferences a `response` attribute that is `None` (e.g.
`exc.response.status_code` on a bare `requests.HTTPError`). -/
inductive PyError where
  | valueError (reason : WaitError)
  | attributeError
  deriving DecidableEq, Repr

/-- The outcome future of one attempt (`tenacity.Future`): `exception()` is
`none` for a success. -/
structure Fut where
  exception : Option Exc
  deriving DecidableEq, Repr

/-- `tenacity.Future.failed`: true iff an exception was captured. -/
def Fut.failed (f : Fut) : Bool := f.exception.isSome

/-- `tenacity.RetryCallState`, restricted to the field the library reads:
`outcome` is `None` before the first attempt completes. -/
structure RetryCallState where
  outcome : Option Fut
  deriving DecidableEq, Repr

/-- `isinstance(exc, types)` where `exc` may be Python `None` (matching no
exception class). -/
def isinstanceOpt (exc : Option Exc) (types : List ExcType) : Bool :=
  match exc with
  | none => false
  | some e => isinstance e.ty types

/-! ## `retryhttp/_utils.py` -/

/-- `get_default_network_errors()` with both httpx and requests installed. -/
def get_default_network_errors : List ExcType :=
  [.httpxConnectError, .httpxReadError, .httpxWriteError,
   .requestsConnectionError, .requestsChunkedEncodingError]

/-- `get_default_timeouts()` with both httpx and requests installed. -/
def get_default_timeouts : List ExcType :=
  [.httpxTimeoutException, .requestsTimeout]

/-- `get_default_http_status_exceptions()` with both httpx and requests
installed. -/
def get_default_http_status_exceptions : List ExcType :=
  [.httpxHTTPStatusError, .requestsHTTPError]

/-- The `status_codes: Union[Sequence[int], int]` argument. -/
inductive StatusCodes where
  | single (n : Nat)
  | seq (l : List Nat)
  deriving DecidableEq, Repr

/-- The `if isinstance(status_codes, int): status_codes = [status_codes]`
normalization inside `is_server_error`. -/
def StatusCodes.toList : StatusCodes → List Nat
  | .single n => [n]
  | .seq l => l

/-- `is_rate_limited(exc)`: `None` yields false; an exception passing the
`isinstance(exc, exceptions) and hasattr(exc, "response")` guard has
`exc.response.status_code` compared with 429 — which raises
`AttributeError` when the `response` attribute is `None` (the requests
default); anything else yields false. -/
def is_rate_limited (exc : Option Exc) : Except PyError Bool :=
  match exc with
  | none => .ok false
  | some e =>
    if isinstance e.ty get_default_http_status_exceptions && e.response.isSome then
      match e.response with
      | some (some r) => .ok (r.status_code == 429)
      | some none => .error .attributeError
      | none => .ok false
    else .ok false

/-- The default of `is_server_error`'s `status_codes` argument:
`tuple(range(500, 600))`. -/
def serverErrorDefaultCodes : StatusCodes := .seq (List.range' 500 100)

/-- `is_server_error(exc, status_codes=tuple(range(500, 600)))`: `None`
yields false; an exception passing the `isinstance` + `hasattr` guard has
`exc.response.status_code` tested for membership in `status_codes` — which
raises `AttributeError` when the `response` attribute is `None`; anything
else yields false. -/
def is_server_error (exc : Option Exc)
    (status_codes : StatusCodes := serverErrorDefaultCodes) : Except PyError Bool :=
  match exc with
  | none => .ok false
  | some e =>
    if isinstance e.ty get_default_http_status_exceptions && e.response.isSome then
      match e.response with
      | some (some r) => .ok (status_codes.toList.contains r.status_code)
      | some none => .error .attributeError
      | none => .ok false
    else .ok false

/-! ## HTTP-date parsing (`datetime.strptime(value, HTTP_DATE_FORMAT)`)

`HTTP_DATE_FORMAT = "%a, %d %b %Y %H:%M:%S GMT"` (`retryhttp/_constants.py`),
the RFC 7231 IMF-fixdate format, e.g. `"Mon, 02 Jan 2006 15:04:05 GMT"`.
We model the parse of canonically formatted dates (two-digit day and time
fields, capitalized three-letter day/month names, four-digit year), mapping
the result to seconds since the Unix epoch (the proleptic Gregorian
calendar arithmetic `datetime` uses). `datetime.strptime` validates the
calendar date (e.g. rejects Feb 30) and the field ranges, and parses the
weekday name without cross-checking it against the date; a failed parse
raises `ValueError`. -/

/-- Numeric value of an ASCII digit. -/
def digitVal (c : Char) : Option Nat :=
  if c.isDigit then some (c.toNat - 48) else none

/-- Two-digit field. -/
def twoDigits (a b : Char) : Option Nat :=
  match digitVal a, digitVal b with
  | some x, some y => some (10 * x + y)
  | _, _ => none

/-- Four-digit field. -/
def fourDigits (a b c d : Char) : Option Nat :=
  match twoDigits a b, twoDigits c d with
  | some x, some y => some (100 * x + y)
  | _, _ => none

/-- `%b` month names to month numbers. -/
def monthNum (m : String) : Option Nat :=
  if m = "Jan" then some 1 else if m = "Feb" then some 2
  else if m = "Mar" then some 3 else if m = "Apr" then some 4
  else if m = "May" then some 5 else if m = "Jun" then some 6
  else if m = "Jul" then some 7 else if m = "Aug" then some 8
  else if m = "Sep" then some 9 else if m = "Oct" then some 10
  else if m = "Nov" then some 11 else if m = "Dec" then some 12
  else none

/-- `%a` weekday names (parsed but not cross-checked against the date). -/
def weekdayNames : List String := ["Mon", "Tue", "Wed", "Thu", "Fri", "Sat", "Sun"]

/-- Gregorian leap year. -/
def isLeapYear (y : Nat) : Bool :=
  y % 4 == 0 && (y % 100 != 0 || y % 400 == 0)

/-- Length of month `m` in year `y`. -/
def daysInMonth (y m : Nat) : Nat :=
  if m == 2 then (if isLeapYear y then 29 else 28)
  else if m == 4 || m == 6 || m == 9 || m == 11 then 30
  else 31

/-- Days in year `y` before the first of month `m`. -/
def daysBeforeMonth (y m : Nat) : Nat :=
  (List.range (m - 1)).foldl (fun acc k => acc + daysInMonth y (k + 1)) 0

/-- `datetime.date(y, m, d).toordinal()`: day number counting 0001-01-01 as 1
in the proleptic Gregorian calendar. -/
def toOrdinal (y m d : Nat) : Nat :=
  365 * (y - 1) + (y - 1) / 4 - (y - 1) / 100 + (y - 1) / 400
    + daysBeforeMonth y m + d

/-- Ordinal of 1970-01-01, the Unix epoch. -/
def epochOrdinal : Nat := 719163

/-- Parse an IMF-fixdate string to seconds since the Unix epoch (UTC), or
`none` where `datetime.strptime` would raise `ValueError`. -/
def parseHTTPDate (s : String) : Option Int :=
  match s.data with
  | [w1, w2, w3, ',', ' ', d1, d2, ' ', m1, m2, m3, ' ', y1, y2, y3, y4, ' ',
     h1, h2, ':', n1, n2, ':', s1, s2, ' ', 'G', 'M', 'T'] =>
    if weekdayNames.contains ⟨[w1, w2, w3]⟩ then
      match twoDigits d1 d2, monthNum ⟨[m1, m2, m3]⟩, fourDigits y1 y2 y3 y4,
            twoDigits h1 h2, twoDigits n1 n2, twoDigits s1 s2 with
      | some d, some mon, some y, some h, some mi, some sec =>
        if 1 ≤ y && 1 ≤ d && d ≤ daysInMonth y mon && h ≤ 23 && mi ≤ 59 && sec ≤ 59 then
          some (86400 * ((toOrdinal y mon d : Int) - (epochOrdinal : Int))
                + 3600 * (h : Int) + 60 * (mi : Int) + (sec : Int))
        else none
      | _, _, _, _, _, _ => none
    else none
  | _ => none

/-! ## `retryhttp/_wait.py`: `wait_from_header` -/

/-- A `tenacity.wait.wait_base` strategy: a total function from the retry
call state to a float number of seconds. -/
def WaitStrat : Type := RetryCallState → ℚ

/-- `re.match(r"^\d+$", value)`: one or more ASCII digits spanning the whole
value. -/
def isAllDigits (s : String) : Bool :=
  s.data ≠ [] && s.data.all Char.isDigit

/-- `float(value)` for an all-digit string. -/
def digitsToNat (s : String) : Nat :=
  s.data.foldl (fun acc c => 10 * acc + (c.toNat - 48)) 0

/-- The state of a `wait_from_header` instance after `__init__` ran. -/
structure wait_from_header where
  header : String
  wait_max : Option ℚ
  fallback : Option WaitStrat

/-- `wait_from_header.__init__(header, wait_max=120.0, fallback=...)`:
`self.wait_max = float(wait_max) if wait_max else None`, so both `None` and
the falsy `0` disable the ceiling. -/
def wait_from_header.make (header : String) (wait_max : Option ℚ)
    (fallback : Option WaitStrat) : wait_from_header :=
  { header := header
    wait_max := match wait_max with
      | none => none
      | some w => if w ≠ 0 then some w else none
    fallback := fallback }

/-- `wait_from_header._get_wait_value(retry_state)`, with the clock `now`
(seconds since epoch) passed explicitly in place of
`datetime.now(timezone.utc)`. `timedelta.seconds` on the nonnegative
difference `retry_after - now` is its seconds component
`(retry_after - now) % 86400` (days are discarded). Reading
`exc.response.headers` raises `AttributeError` when the `response`
attribute is `None`. -/
def wait_from_header.get_wait_value (self : wait_from_header) (now : Int)
    (retry_state : RetryCallState) : Except PyError ℚ :=
  match retry_state.outcome with
  | none => .error (.valueError .unableToParse)
  | some fut =>
    match fut.exception with
    | none => .ok 0
    | some exc =>
      if isinstance exc.ty get_default_http_status_exceptions && exc.response.isSome then
        match exc.response with
        | none => .error (.valueError .unableToParse)
        | some none => .error .attributeError
        | some (some r) =>
          match r.headersGet self.header with
          | none => .error (.valueError .missingHeader)
          | some value =>
            if isAllDigits value then .ok (digitsToNat value : ℚ)
            else
              match parseHTTPDate value with
              | none => .error (.valueError .invalidHeaderValue)
              | some retry_after =>
                if retry_after < now then .error (.valueError .dateInPast)
                else .ok (((retry_after - now) % 86400 : Int) : ℚ)
      else .error (.valueError .unableToParse)

/-- `if self.wait_max and value > self.wait_max` (Python truthiness of the
float: `0.0` is falsy). -/
def wait_from_header.exceedsMax (self : wait_from_header) (value : ℚ) : Bool :=
  match self.wait_max with
  | none => false
  | some wm => wm ≠ 0 && wm < value

/-- `wait_from_header.__call__(retry_state)`. With a fallback configured the
body runs under `try ... except ValueError`, so only the `ValueError` family
is swallowed: an `AttributeError` from `_get_wait_value` propagates out even
with a fallback. -/
def wait_from_header.call (self : wait_from_header) (now : Int)
    (retry_state : RetryCallState) : Except PyError ℚ :=
  match self.fallback with
  | some fb =>
    match self.get_wait_value now retry_state with
    | .ok value =>
      if self.exceedsMax value then .ok (fb retry_state) else .ok value
    | .error (.valueError _) => .ok (fb retry_state)
    | .error .attributeError => .error .attributeError
  | none =>
    match self.get_wait_value now retry_state with
    | .ok value =>
      if self.exceedsMax value then .error (.valueError .waitExceedsMax)
      else .ok value
    | .error e => .error e

/-! ## `retryhttp/_wait.py`: `wait_context_aware` -/

/-- The state of a `wait_context_aware` instance after `__init__` resolved the
`None` defaults of `network_errors` / `timeouts`. The per-category strategies
are `wait_base` callables. -/
structure wait_context_aware where
  wait_server_errors : WaitStrat
  wait_network_errors : WaitStrat
  wait_timeouts : WaitStrat
  wait_rate_limited : WaitStrat
  server_error_codes : StatusCodes
  network_errors : List ExcType
  timeouts : List ExcType

/-- The `server_error_codes` default shared by `wait_context_aware.__init__`
and `retry`: `(500, 502, 503, 504)`. -/
def retryServerErrorCodes : StatusCodes := .seq [500, 502, 503, 504]

/-- `wait_context_aware.__init__` with every argument left at its default
(strategies replaced by the given callables). -/
def wait_context_aware.make (ws wn wt wr : WaitStrat) : wait_context_aware :=
  { wait_server_errors := ws
    wait_network_errors := wn
    wait_timeouts := wt
    wait_rate_limited := wr
    server_error_codes := retryServerErrorCodes
    network_errors := get_default_network_errors
    timeouts := get_default_timeouts }

/-- `wait_context_aware.__call__(retry_state)`: classify the outcome's
exception in priority order and delegate to the matching strategy; `0` when
there is no outcome or nothing matches. An `AttributeError` raised inside
`is_server_error` or `is_rate_limited` propagates out of the call. -/
def wait_context_aware.call (self : wait_context_aware)
    (retry_state : RetryCallState) : Except PyError ℚ :=
  match retry_state.outcome with
  | none => .ok 0
  | some fut =>
    match is_server_error fut.exception self.server_error_codes with
    | .error e => .error e
    | .ok true => .ok (self.wait_server_errors retry_state)
    | .ok false =>
      if isinstanceOpt fut.exception self.network_errors then
        .ok (self.wait_network_errors retry_state)
      else if isinstanceOpt fut.exception self.timeouts then
        .ok (self.wait_timeouts retry_state)
      else
        match is_rate_limited fut.exception with
        | .error e => .error e
        | .ok true => .ok (self.wait_rate_limited retry_state)
        | .ok false => .ok 0

/-! ## `retryhttp/_retry.py`: the retry strategies and the `retry` builder -/

/-- The four retry strategies `retry()` may assemble
(`retry_if_server_error`, `retry_if_network_error`, `retry_if_timeout`,
`retry_if_rate_limited`), each carrying its configuration. -/
inductive RetryStrategy where
  | if_server_error (server_error_codes : StatusCodes)
  | if_network_error (errors : List ExcType)
  | if_timeout (timeouts : List ExcType)
  | if_rate_limited
  deriving Repr

/-- `__call__(retry_state)` of each strategy. `retry_if_server_error` and
`retry_if_rate_limited` guard on `retry_state.outcome and
retry_state.outcome.failed` and then call the fallible classifiers;
`retry_if_exception_type` (the tenacity base of the other two) retries iff
the outcome failed with an exception of one of the given types. -/
def RetryStrategy.call (s : RetryStrategy) (retry_state : RetryCallState) :
    Except PyError Bool :=
  match retry_state.outcome with
  | none => .ok false
  | some fut =>
    match s with
    | .if_server_error codes =>
        if fut.failed then is_server_error fut.exception codes else .ok false
    | .if_network_error errors =>
        .ok (fut.failed && isinstanceOpt fut.exception errors)
    | .if_timeout timeouts =>
        .ok (fut.failed && isinstanceOpt fut.exception timeouts)
    | .if_rate_limited =>
        if fut.failed then is_rate_limited fut.exception else .ok false

/-- `tenacity.retry_any(*retry_strategies)`: lazy logical OR; an error from a
strategy propagates. -/
def retry_any_call (strategies : List RetryStrategy)
    (retry_state : RetryCallState) : Except PyError Bool :=
  match strategies with
  | [] => .ok false
  | s :: rest =>
    match s.call retry_state with
    | .error e => .error e
    | .ok true => .ok true
    | .ok false => retry_any_call rest retry_state

/-- The `retry_strategies` list assembled by `retry()` from the four enable
flags. -/
def retry_strategies (retry_server_errors retry_network_errors retry_timeouts
    retry_rate_limited : Bool) (server_error_codes : StatusCodes)
    (network_errors timeouts : List ExcType) : List RetryStrategy :=
  (if retry_server_errors then [.if_server_error server_error_codes] else [])
    ++ (if retry_network_errors then [.if_network_error network_errors] else [])
    ++ (if retry_timeouts then [.if_timeout timeouts] else [])
    ++ (if retry_rate_limited then [.if_rate_limited] else [])

/-- The build-time portion of `retry()`: assemble the strategies and raise
`RuntimeError("No retry strategies enabled.")` when the list is empty. This
happens while the decorator is constructed, before any attempt runs. -/
def retry_build (retry_server_errors retry_network_errors retry_timeouts
    retry_rate_limited : Bool) (server_error_codes : StatusCodes)
    (network_errors timeouts : List ExcType) :
    Except String (List RetryStrategy) :=
  let strategies := retry_strategies retry_server_errors retry_network_errors
    retry_timeouts retry_rate_limited server_error_codes network_errors timeouts
  if strategies.isEmpty then .error "No retry strategies enabled."
  else .ok strategies

/-! ## Concrete probe values used by the theorems below -/

/-- An `httpx.HTTPStatusError` for a 503 response that also carries a
`Retry-After` header. -/
def exc503RetryAfter : Exc :=
  ⟨.httpxHTTPStatusError, some (some ⟨503, [("Retry-After", "120")]⟩)⟩

/-- A bare `requests.HTTPError("boom")`: the `response` attribute exists and
is `None`, the default state set by `requests.RequestException.__init__`. -/
def bareRequestsHTTPError : Exc := ⟨.requestsHTTPError, some none⟩

/-- A `wait_context_aware` whose four strategies return the distinct
constants 7, 11, 13, 17, with all other arguments at their defaults. -/
def dispatchProbe : wait_context_aware :=
  wait_context_aware.make (fun _ => 7) (fun _ => 11) (fun _ => 13) (fun _ => 17)

/-- A retry call state whose outcome failed with `exc503RetryAfter`. -/
def rs503 : RetryCallState := ⟨some ⟨some exc503RetryAfter⟩⟩

/-- A fallback strategy returning the constant 5. -/
def fiveFallback : WaitStrat := fun _ => 5

/-- A retry call state for a 503 failure whose response has the given
`Retry-After` header value. -/
def rsRetryAfter (value : String) : RetryCallState :=
  ⟨some ⟨some ⟨.httpxHTTPStatusError, some (some ⟨503, [("Retry-After", value)]⟩)⟩⟩⟩

end Retryhttp

namespace Retryhttp

example : is_rate_limited (some ⟨.httpxHTTPStatusError, some (some ⟨429, []⟩)⟩) = .ok true := by
  decide

example : is_server_error (some ⟨.httpxHTTPStatusError, some (some ⟨501, []⟩)⟩) = .ok true := by
  decide

example : isinstance .requestsConnectTimeout get_default_timeouts = true := by decide

example : parseHTTPDate "Mon, 02 Jan 2006 15:04:05 GMT" = some 1136214245 := by decide

example : parseHTTPDate "Fri, 02 Jan 1970 00:00:30 GMT" = some 86430 := by decide

example : parseHTTPDate "Wed, 31 Dec 1969 23:59:00 GMT" = some (-60) := by decide

example : parseHTTPDate "Fri, 30 Feb 1970 00:00:30 GMT" = none := by decide

example :
    (wait_from_header.make "Retry-After" (some 120) none).get_wait_value 0
      ⟨some ⟨some ⟨.httpxHTTPStatusError,
        some (some ⟨503, [("Retry-After", "120")]⟩)⟩⟩⟩ = .ok 120 := by decide

example :
    (wait_from_header.make "Retry-After" (some 120) none).get_wait_value 0
      ⟨some ⟨some ⟨.httpxHTTPStatusError,
        some (some ⟨503, [("retry-after", "Fri, 02 Jan 1970 00:00:30 GMT")]⟩)⟩⟩⟩ =
      .ok 30 := by decide

/-- C3 (counterexample): the claim says that with the `status_codes` argument
omitted, `is_server_error` defaults to `{500, 502, 503, 504}`; but the code's
default is `tuple(range(500, 600))`, so a failure with status 501 — which is
not in `{500, 502, 503, 504}` — is classified as a server error. -/
theorem C3_default_codes_counterexample :
    is_server_error (some ⟨.httpxHTTPStatusError, some (some ⟨501, []⟩)⟩) =
      .ok true ∧
    (501 : Nat) ∉ ([500, 502, 503, 504] : List Nat) := by decide

/-- C3 (amended): `is_server_error(outcome, codes)` returns true iff the
outcome is a failure whose exception is an HTTP-status exception carrying a
captured response whose status code is a member of `codes`; when the `codes`
argument is omitted it defaults to all of 500–599 (`tuple(range(500, 600))`),
not to `{500, 502, 503, 504}`. -/
theorem C3_is_server_error (exc : Option Exc) (codes : StatusCodes) :
    (is_server_error exc codes = .ok true ↔
      ∃ e r, exc = some e ∧
        isinstance e.ty get_default_http_status_exceptions = true ∧
        e.response = some (some r) ∧ r.status_code ∈ codes.toList) ∧
    (∀ n, n ∈ serverErrorDefaultCodes.toList ↔ 500 ≤ n ∧ n < 600) := by
  constructor
  · cases exc with
    | none => simp [is_server_error]
    | some e =>
      cases hr : e.response with
      | none => simp [is_server_error, hr]
      | some ro =>
        cases ro with
        | none =>
          by_cases hi : isinstance e.ty get_default_http_status_exceptions = true
          · simp [is_server_error, hr, hi]
          · simp only [Bool.not_eq_true] at hi
            simp [is_server_error, hr, hi]
        | some r =>
          by_cases hi : isinstance e.ty get_default_http_status_exceptions = true
          · simp [is_server_error, hr, hi]
          · simp only [Bool.not_eq_true] at hi
            simp [is_server_error, hr, hi]
  · intro n
    rw [serverErrorDefaultCodes, StatusCodes.toList, List.mem_range'_1]

/-- C3 (amended, witness): the characterization applied to a concrete 503
failure under the code's default codes. -/
theorem C3_is_server_error_witness :
    is_server_error (some ⟨.httpxHTTPStatusError, some (some ⟨503, []⟩)⟩)
      serverErrorDefaultCodes = .ok true :=
  (C3_is_server_error (some ⟨.httpxHTTPStatusError, some (some ⟨503, []⟩)⟩)
    serverErrorDefaultCodes).1.mpr
    ⟨⟨.httpxHTTPStatusError, some (some ⟨503, []⟩)⟩, ⟨503, []⟩, rfl, by decide,
      rfl, by decide⟩

/-- C6: evaluation of `is_rate_limited` at the decisive inputs. It
implements the `status == 429` detection variant (a 429 response yields true;
a 503 response carrying a `Retry-After` header yields false), a `None`
exception or an exception without the `response` attribute yields false; but
a `requests.HTTPError` whose `response` attribute is `None` — the requests
default — raises `AttributeError` at `exc.response.status_code` instead of
yielding false, contradicting the claim's no-captured-response clause. -/
theorem C6_is_rate_limited_eval :
    is_rate_limited (some ⟨.requestsHTTPError, some (some ⟨429, []⟩)⟩) =
      .ok true ∧
    is_rate_limited (some ⟨.httpxHTTPStatusError, some (some ⟨429, []⟩)⟩) =
      .ok true ∧
    is_rate_limited (some exc503RetryAfter) = .ok false ∧
    is_rate_limited none = .ok false ∧
    is_rate_limited (some ⟨.otherException, none⟩) = .ok false ∧
    is_rate_limited (some ⟨.httpxConnectError, none⟩) = .ok false ∧
    is_rate_limited (some bareRequestsHTTPError) = .error .attributeError := by
  decide

/-- C8: evaluation of the classifier predicates at the decisive inputs. A
`None` exception yields false from all four, and an exception without the
`response` attribute yields false from the response-based two; but
`is_rate_limited` and `is_server_error` raise `AttributeError` dereferencing
`exc.response` on a bare `requests.HTTPError`, whose `response` attribute is
always present (set to `None` by `requests.RequestException.__init__`), so
the `hasattr(exc, "response")` guard does not protect them and they are not
total, contradicting the claim. The `isinstance`-based network/timeout
classifiers never raise. -/
theorem C8_classifiers_eval :
    is_rate_limited none = .ok false ∧
    is_server_error none retryServerErrorCodes = .ok false ∧
    isinstanceOpt none get_default_network_errors = false ∧
    isinstanceOpt none get_default_timeouts = false ∧
    is_rate_limited (some ⟨.httpxConnectError, none⟩) = .ok false ∧
    is_server_error (some ⟨.httpxConnectError, none⟩) retryServerErrorCodes =
      .ok false ∧
    is_rate_limited (some bareRequestsHTTPError) = .error .attributeError ∧
    is_server_error (some bareRequestsHTTPError) retryServerErrorCodes =
      .error .attributeError := by decide

/-- C9 (counterexample): the claim says no failure exception satisfies both
the default timeout classifier and the default network-error classifier; but
`requests.exceptions.ConnectTimeout` inherits from both
`requests.ConnectionError` (in the default network-error set) and
`requests.Timeout` (in the default timeout set), so an exception of that
class satisfies both `isinstance` checks at once. -/
theorem C9_default_sets_counterexample :
    isinstance .requestsConnectTimeout get_default_network_errors = true ∧
    isinstance .requestsConnectTimeout get_default_timeouts = true := by decide

/-- C9 (amended): the default network-error and timeout sets are disjoint as
sets of exception classes (no class is listed in both), and
`requests.exceptions.ConnectTimeout` — which inherits from both
`requests.ConnectionError` and `requests.Timeout` — is the only exception
class in the modelled taxonomy whose instances satisfy both classifiers;
the dispatcher's priority order resolves it to the network-error category. -/
theorem C9_default_sets_overlap (c : ExcType) :
    (∀ t ∈ get_default_network_errors, t ∉ get_default_timeouts) ∧
    (isinstance c get_default_network_errors = true →
      isinstance c get_default_timeouts = true →
      c = .requestsConnectTimeout) := by
  revert c; decide

/-- C9 (amended, witness): the overlap characterization applied at
`requests.exceptions.ConnectTimeout` itself, with both classifier hypotheses
discharged by evaluation. -/
theorem C9_default_sets_overlap_witness :
    ExcType.requestsConnectTimeout = .requestsConnectTimeout :=
  (C9_default_sets_overlap .requestsConnectTimeout).2 (by decide) (by decide)

/-- C1: evaluation of `wait_context_aware.__call__` on the probe
configuration (server/network/timeout/rate-limited strategies returning
7/11/13/17). The priority dispatch is as claimed — a 503 failure also
carrying a `Retry-After` header goes to the server-error strategy (7), not
the rate-limited one (17); network, timeout and rate-limited failures go to
their strategies; no outcome, a success outcome and an unmatched exception
yield zero — but an outcome failed with a bare `requests.HTTPError`
(`response` attribute `None`, the requests default) propagates the
`AttributeError` raised inside `is_server_error` instead of returning zero,
contradicting the claim's no-category-returns-zero clause. -/
theorem C1_wait_context_aware_dispatch_eval :
    exc503RetryAfter.response = some (some ⟨503, [("Retry-After", "120")]⟩) ∧
    dispatchProbe.call rs503 = .ok 7 ∧
    dispatchProbe.call ⟨some ⟨some ⟨.httpxConnectError, none⟩⟩⟩ = .ok 11 ∧
    dispatchProbe.call ⟨some ⟨some ⟨.requestsConnectTimeout, none⟩⟩⟩ = .ok 11 ∧
    dispatchProbe.call ⟨some ⟨some ⟨.httpxReadTimeout, none⟩⟩⟩ = .ok 13 ∧
    dispatchProbe.call
      ⟨some ⟨some ⟨.httpxHTTPStatusError, some (some ⟨429, []⟩)⟩⟩⟩ = .ok 17 ∧
    dispatchProbe.call ⟨none⟩ = .ok 0 ∧
    dispatchProbe.call ⟨some ⟨none⟩⟩ = .ok 0 ∧
    dispatchProbe.call ⟨some ⟨some ⟨.otherException, none⟩⟩⟩ = .ok 0 ∧
    dispatchProbe.call ⟨some ⟨some bareRequestsHTTPError⟩⟩ =
      .error .attributeError := by decide

/-- C7: the `retry` builder raises `RuntimeError("No retry strategies
enabled.")` while building the policy if and only if all four category
enable flags are false; any configuration with at least one enabled category
is accepted and yields a nonempty strategy list. The `RuntimeError` is
raised only inside `retry_build`, which runs while the decorator is
constructed; the attempt-time predicate `retry_any_call` has no
configuration-error outcome. -/
theorem C7_retry_build (a b c d : Bool) (codes : StatusCodes)
    (network_errors timeouts : List ExcType) :
    ((∃ e, retry_build a b c d codes network_errors timeouts = .error e) ↔
      a = false ∧ b = false ∧ c = false ∧ d = false) ∧
    (∀ s, retry_build a b c d codes network_errors timeouts = .ok s →
      s ≠ []) := by
  cases a <;> cases b <;> cases c <;> cases d <;>
    simp [retry_build, retry_strategies]

/-- C7 (witness): the all-disabled configuration is rejected, and enabling
only the rate-limited category is accepted with a nonempty strategy list. -/
theorem C7_retry_build_witness :
    (∃ e, retry_build false false false false retryServerErrorCodes
      get_default_network_errors get_default_timeouts = .error e) ∧
    ([RetryStrategy.if_rate_limited] ≠ []) :=
  ⟨(C7_retry_build false false false false retryServerErrorCodes
      get_default_network_errors get_default_timeouts).1.mpr
      ⟨rfl, rfl, rfl, rfl⟩,
    (C7_retry_build false false false true retryServerErrorCodes
      get_default_network_errors get_default_timeouts).2
      [RetryStrategy.if_rate_limited] rfl⟩

/-- C2: evaluation of `_get_wait_value` at the decisive inputs. An all-digit
header value yields that many seconds, a date in the past is an error (not a
zero wait), and an HTTP-date less than a day ahead yields the actual
difference; but the code computes `(retry_after - now).seconds` — the seconds
component of the timedelta, i.e. the difference modulo 86400 — instead of
`total_seconds()`, so a date 86430 seconds (one day and 30 seconds) in the
future yields a 30-second wait rather than 86430 seconds, contradicting the
claim (and the class's own documentation of the header value as the time at
which it is acceptable to retry). -/
theorem C2_header_value_parsing_eval :
    (wait_from_header.make "Retry-After" (some 200000) none).get_wait_value 0
        (rsRetryAfter "120") = .ok 120 ∧
    (wait_from_header.make "Retry-After" (some 200000) none).get_wait_value 0
        (rsRetryAfter "Thu, 01 Jan 1970 00:00:30 GMT") = .ok 30 ∧
    (wait_from_header.make "Retry-After" (some 200000) none).get_wait_value 0
        (rsRetryAfter "Wed, 31 Dec 1969 23:59:00 GMT") =
      .error (.valueError .dateInPast) ∧
    parseHTTPDate "Fri, 02 Jan 1970 00:00:30 GMT" = some 86430 ∧
    (wait_from_header.make "Retry-After" (some 200000) none).get_wait_value 0
        (rsRetryAfter "Fri, 02 Jan 1970 00:00:30 GMT") = .ok 30 := by decide

/-- C4: with a positive configured `wait_max`, a wait value parsed from the
header that equals `wait_max` exactly is accepted and returned unchanged,
while a strictly greater value triggers the fallback strategy's result when a
fallback is configured, and a `ValueError` when none is. -/
theorem C4_wait_max_boundary (header : String) (wm : ℚ) (fb : Option WaitStrat)
    (now : Int) (rs : RetryCallState) (v : ℚ) (hwm : 0 < wm)
    (hv : (wait_from_header.make header (some wm) fb).get_wait_value now rs =
      .ok v) :
    (v = wm →
      (wait_from_header.make header (some wm) fb).call now rs = .ok v) ∧
    (wm < v →
      (∀ f, fb = some f →
        (wait_from_header.make header (some wm) fb).call now rs = .ok (f rs)) ∧
      (fb = none →
        (wait_from_header.make header (some wm) fb).call now rs =
          .error (.valueError .waitExceedsMax))) := by
  have hwm0 : wm ≠ 0 := ne_of_gt hwm
  have hself : wait_from_header.make header (some wm) fb = ⟨header, some wm, fb⟩ := by
    simp [wait_from_header.make, hwm0]
  rw [hself] at hv ⊢
  constructor
  · intro hvw
    subst hvw
    cases fb <;>
      simp [wait_from_header.call, hv, wait_from_header.exceedsMax, lt_irrefl]
  · intro hlt
    constructor
    · intro f hf
      subst hf
      simp [wait_from_header.call, hv, wait_from_header.exceedsMax, hwm0, hlt]
    · intro hf
      subst hf
      simp [wait_from_header.call, hv, wait_from_header.exceedsMax, hwm0, hlt]

/-- C4 (witness): with `wait_max = 120` and a fallback returning 5, the
header value `"120"` is returned unchanged while `"121"` yields the
fallback's 5; without a fallback, `"121"` raises. -/
theorem C4_wait_max_boundary_witness :
    (wait_from_header.make "Retry-After" (some 120) (some fiveFallback)).call 0
        (rsRetryAfter "120") = .ok 120 ∧
    (wait_from_header.make "Retry-After" (some 120) (some fiveFallback)).call 0
        (rsRetryAfter "121") = .ok 5 ∧
    (wait_from_header.make "Retry-After" (some 120) none).call 0
        (rsRetryAfter "121") = .error (.valueError .waitExceedsMax) :=
  ⟨(C4_wait_max_boundary "Retry-After" 120 (some fiveFallback) 0
      (rsRetryAfter "120") 120 (by decide) (by decide)).1 rfl,
    ((C4_wait_max_boundary "Retry-After" 120 (some fiveFallback) 0
      (rsRetryAfter "121") 121 (by decide) (by decide)).2 (by decide)).1
      fiveFallback rfl,
    ((C4_wait_max_boundary "Retry-After" 120 none 0
      (rsRetryAfter "121") 121 (by decide) (by decide)).2 (by decide)).2 rfl⟩

/-- C5: evaluation of `wait_from_header.__call__` at the decisive inputs
with `wait_max = 120` and a fallback returning 5. Every `ValueError`
condition — missing header, unparseable value, date in the past, value over
`wait_max` — is swallowed and replaced by the fallback's result when the
fallback is configured, and propagates when it is not, as claimed; but the
call does not never-raise with a fallback: a bare `requests.HTTPError`
(`response` attribute `None`) makes `_get_wait_value` raise `AttributeError`
at `exc.response.headers`, which `except ValueError` does not catch, so the
call raises even though a fallback is configured — contradicting the
claim (and the class docstring, which documents raising only when `fallback`
is `None`). -/
theorem C5_fallback_error_handling_eval :
    (wait_from_header.make "Retry-After" (some 120) (some fiveFallback)).call 0
      ⟨some ⟨some ⟨.httpxHTTPStatusError, some (some ⟨503, []⟩)⟩⟩⟩ = .ok 5 ∧
    (wait_from_header.make "Retry-After" (some 120) (some fiveFallback)).call 0
      (rsRetryAfter "bogus") = .ok 5 ∧
    (wait_from_header.make "Retry-After" (some 120) (some fiveFallback)).call 0
      (rsRetryAfter "Wed, 31 Dec 1969 23:59:00 GMT") = .ok 5 ∧
    (wait_from_header.make "Retry-After" (some 120) (some fiveFallback)).call 0
      (rsRetryAfter "121") = .ok 5 ∧
    (wait_from_header.make "Retry-After" (some 120) none).call 0
      ⟨some ⟨some ⟨.httpxHTTPStatusError, some (some ⟨503, []⟩)⟩⟩⟩ =
      .error (.valueError .missingHeader) ∧
    (wait_from_header.make "Retry-After" (some 120) none).call 0
      (rsRetryAfter "bogus") = .error (.valueError .invalidHeaderValue) ∧
    (wait_from_header.make "Retry-After" (some 120) none).call 0
      (rsRetryAfter "Wed, 31 Dec 1969 23:59:00 GMT") =
      .error (.valueError .dateInPast) ∧
    (wait_from_header.make "Retry-After" (some 120) none).call 0
      (rsRetryAfter "121") = .error (.valueError .waitExceedsMax) ∧
    (wait_from_header.make "Retry-After" (some 120) (some fiveFallback)).call 0
      ⟨some ⟨some bareRequestsHTTPError⟩⟩ = .error .attributeError := by decide

/-- C10: constructing `wait_from_header` with `wait_max = 0` normalizes the
ceiling to `None` (Python falsiness in `float(wait_max) if wait_max else
None`), the same state as passing `wait_max=None`, so every wait value parsed
from the header — however large — is returned unchanged rather than capped,
fallen back on, or raised. -/
theorem C10_wait_max_zero_unlimited (header : String) (fb : Option WaitStrat) :
    wait_from_header.make header (some 0) fb =
      wait_from_header.make header none fb ∧
    (∀ now rs v,
      (wait_from_header.make header (some 0) fb).get_wait_value now rs = .ok v →
      (wait_from_header.make header (some 0) fb).call now rs = .ok v) := by
  have h : wait_from_header.make header (some 0) fb =
      wait_from_header.make header none fb := by
    simp [wait_from_header.make]
  refine ⟨h, ?_⟩
  intro now rs v hv
  rw [h] at hv ⊢
  have hmake : wait_from_header.make header none fb = ⟨header, none, fb⟩ := by
    simp [wait_from_header.make]
  rw [hmake] at hv ⊢
  cases fb <;> simp [wait_from_header.call, hv, wait_from_header.exceedsMax]

/-- C10 (witness): with `wait_max = 0`, a parsed wait of 1000000000 seconds
is returned unchanged. -/
theorem C10_wait_max_zero_unlimited_witness :
    (wait_from_header.make "Retry-After" (some 0) none).call 0
      (rsRetryAfter "1000000000") = .ok 1000000000 :=
  (C10_wait_max_zero_unlimited "Retry-After" none).2 0
    (rsRetryAfter "1000000000") 1000000000 (by decide)

end Retryhttp
